import Mathlib

/-!
Verification of the `tools`/`console_tools` C++ utility toolkit
(FileHandle = `filesystem::file_t`, DirectoryNavigator =
`monitoring::get_file_path` / `filesystem_monitoring::get_file_path`).

The filesystem is modelled abstractly: a path is its list of components
(`std::filesystem::path::remove_filename` drops the last component,
`operator/=` appends one), and the ambient filesystem state is a record of
the query functions the code calls (`fs::exists`, `fs::is_directory`,
`fs::directory_iterator`, stream-open success, file bytes).  C++ functions
that can throw are modelled in `Except String`; total C++ functions become
total Lean functions.

The repository contains three snapshots of the same header
(`src/tools.hpp`, and two unnamed variants); where they differ the
definitions carry the suffix `_hpp` (for `src/tools.hpp`) and `_v000`
(for the variant that clears the token table and has the `d` token; the
third variant behaves like `_v000` for everything proved here).
-/

namespace CppTools

/-- A filesystem path, as its list of components.
`fs::path::remove_filename` is `List.dropLast`, `path /= c` is `++ [c]`,
`path.parent_path()` is `List.dropLast`, `path.filename()` is the last
component. -/
abbrev Path := List String

/-- `path.filename().generic_string()` : the last component (empty for the
empty path). -/
def fname (p : Path) : String := p.getLastD ""

/-- The ambient filesystem state, as the queries the code performs.
`exists_b` models `fs::exists`, `is_directory` models `fs::is_directory`,
`children` models `fs::directory_iterator` (one `(is_directory, filename)`
pair per entry, in the platform's enumeration order), `can_open` /
`can_create` model whether an `ifstream`/`ofstream` on the path opens, and
`contents` models the bytes read from an open file. -/
structure FS where
  exists_b : Path → Bool
  is_directory : Path → Bool
  children : Path → List (Bool × String)
  can_open : Path → Bool
  can_create : Path → Bool
  contents : Path → String

/-- `filesystem::file_t` : a byte buffer (`text_`), its cached length
(`size_`) and a path (`path_`). -/
structure file_t where
  size_ : Nat
  text_ : String
  path_ : Path
deriving DecidableEq, Repr

/-- The default constructor `file_t()` : path is
`fs::current_path() / "temporary_file.txt"`, buffer empty, size zero. -/
def file_t.default (cwd : Path) : file_t :=
  { size_ := 0, text_ := "", path_ := cwd ++ ["temporary_file.txt"] }

/-- `file_t::set_path` : copy the path, `remove_filename()` it; only when
the resulting parent exists, store the new path, appending
`temporary_file.txt` when the new path is itself a directory. -/
def set_path (fs : FS) (f : file_t) (path : Path) : file_t :=
  let tmp_path := path.dropLast
  if fs.exists_b tmp_path then
    if fs.is_directory path then
      { f with path_ := path ++ ["temporary_file.txt"] }
    else
      { f with path_ := path }
  else f

/-- `file_t::set_text` : replace the buffer and recompute the size. -/
def set_text (f : file_t) (text : String) : file_t :=
  { f with text_ := text, size_ := text.length }

/-- `file_t::get_text`. -/
def get_text (f : file_t) : String := f.text_

/-- `file_t::get_path_fs`. -/
def get_path_fs (f : file_t) : Path := f.path_

/-- `file_t::size`. -/
def file_t.size (f : file_t) : Nat := f.size_

/-- The `file_t(path)` constructor of `src/tools.hpp`: it does NOT
delegate to `file_t()`, so `path_` starts as the default-constructed
(empty) `fs::path` and only `set_path` runs. -/
def file_t_from_path_hpp (fs : FS) (path : Path) : file_t :=
  set_path fs { size_ := 0, text_ := "", path_ := [] } path

/-- The `file_t(path)` constructor of the `_v000` variant: it delegates to
`file_t()` and then runs `set_path`. -/
def file_t_from_path_v000 (fs : FS) (cwd : Path) (path : Path) : file_t :=
  set_path fs (file_t.default cwd) path

/-- The `file_t(text)` / `file_t(text, size)` constructors (identical in
all variants): delegate to `file_t()` then `set_text`. -/
def file_t_from_text (cwd : Path) (text : String) : file_t :=
  set_text (file_t.default cwd) text

/-- The `file_t(path, text)` / `file_t(path, text, size)` constructors of
`src/tools.hpp` (no delegation to `file_t()`): `set_path` then `set_text`
over default-initialised members. -/
def file_t_from_path_text_hpp (fs : FS) (path : Path) (text : String) : file_t :=
  set_text (file_t_from_path_hpp fs path) text

/-- The `file_t(path, text)` / `file_t(path, text, size)` constructors of
the `_v000` variant: delegate to `file_t()`, then `set_path`, `set_text`. -/
def file_t_from_path_text_v000 (fs : FS) (cwd : Path) (path : Path) (text : String) : file_t :=
  set_text (file_t_from_path_v000 fs cwd path) text

/-- `monitoring::read_file(path)` : missing or directory paths yield a
default `file_t`; a path whose stream does not open throws
`Cannot open file`; otherwise the bytes are read and the result is built
with the `file_t(path, buffer, size)` constructor. -/
def read_file (fs : FS) (cwd : Path) (path : Path) : Except String file_t :=
  if !fs.exists_b path || fs.is_directory path then
    .ok (file_t.default cwd)
  else if fs.can_open path then
    .ok (file_t_from_path_text_hpp fs path (fs.contents path))
  else
    .error ("Error: Cannot open file: " ++ fname path)

/-- `monitoring::write_file(path, text)` (`_v000` variant) : missing or
directory paths return silently; a path whose stream does not open throws
`Cannot open file`; otherwise the text is appended (`std::ios::app`). -/
def write_file (fs : FS) (path : Path) (text : String) : Except String FS :=
  if !fs.exists_b path || fs.is_directory path then
    .ok fs
  else if fs.can_open path then
    .ok { fs with contents := fun q => if q == path then fs.contents path ++ text else fs.contents q }
  else
    .error ("Error: Cannot open file: " ++ fname path)

end CppTools

namespace CppTools

/-- C3: `set_path` with a parent that does not exist is a silent no-op:
the handle is unchanged (and, being a total function, nothing is raised). -/
theorem set_path_no_parent_noop (fs : FS) (f : file_t) (p : Path)
    (h : fs.exists_b p.dropLast = false) : set_path fs f p = f := by
  simp [set_path, h]

/-- Witness for `set_path_no_parent_noop` at a concrete input. -/
theorem set_path_no_parent_noop_witness :
    set_path ⟨fun _ => false, fun _ => false, fun _ => [], fun _ => false,
              fun _ => false, fun _ => ""⟩
      ⟨3, "abc", ["home", "f.txt"]⟩ ["nowhere", "g.txt"]
      = ⟨3, "abc", ["home", "f.txt"]⟩ :=
  set_path_no_parent_noop _ _ _ rfl

/-- C4: when the parent of the new path exists, `set_path` stores
`new_path / "temporary_file.txt"` if `new_path` is a directory, and
`new_path` verbatim otherwise. -/
theorem set_path_parent_exists (fs : FS) (f : file_t) (p : Path)
    (h : fs.exists_b p.dropLast = true) :
    (fs.is_directory p = true →
      (set_path fs f p).path_ = p ++ ["temporary_file.txt"]) ∧
    (fs.is_directory p = false →
      (set_path fs f p).path_ = p) := by
  constructor <;> intro hd <;> simp [set_path, h, hd]

/-- Witness for `set_path_parent_exists` at concrete inputs (a directory
path and a non-directory path under an existing parent). -/
theorem set_path_parent_exists_witness :
    (set_path ⟨fun p => p == ["home"], fun p => p == ["home", "sub"],
               fun _ => [], fun _ => false, fun _ => false, fun _ => ""⟩
       ⟨0, "", []⟩ ["home", "sub"]).path_
      = ["home", "sub", "temporary_file.txt"] ∧
    (set_path ⟨fun p => p == ["home"], fun p => p == ["home", "sub"],
               fun _ => [], fun _ => false, fun _ => false, fun _ => ""⟩
       ⟨0, "", []⟩ ["home", "f.txt"]).path_
      = ["home", "f.txt"] :=
  ⟨(set_path_parent_exists _ ⟨0, "", []⟩ ["home", "sub"] rfl).1 rfl,
   (set_path_parent_exists _ ⟨0, "", []⟩ ["home", "f.txt"] rfl).2 rfl⟩

/-- C6: `set_text` maintains `size_ = text_.length`, so after any finite
sequence of `set_text` calls on a handle satisfying the invariant the
invariant still holds (with empty buffers included; `set_text` is total,
so no call raises). -/
theorem set_text_size_invariant (f : file_t) (texts : List String)
    (h : f.size_ = f.text_.length) :
    (texts.foldl set_text f).size_ = (texts.foldl set_text f).text_.length := by
  induction texts generalizing f with
  | nil => exact h
  | cons t ts ih => exact ih (set_text f t) rfl

/-- Witness for `set_text_size_invariant` at a concrete handle and a
concrete sequence of buffers that includes an empty buffer. -/
theorem set_text_size_invariant_witness :
    ((["ab", "", "xyz"] : List String).foldl set_text ⟨0, "", []⟩).size_
      = ((["ab", "", "xyz"] : List String).foldl set_text ⟨0, "", []⟩).text_.length :=
  set_text_size_invariant ⟨0, "", []⟩ ["ab", "", "xyz"] rfl

/-- A concrete filesystem on which nothing exists (for C5). -/
def fsNone : FS :=
  ⟨fun _ => false, fun _ => false, fun _ => [], fun _ => false,
   fun _ => false, fun _ => ""⟩

/-- C5 counterexample: in `src/tools.hpp`, constructing `file_t` from a
path whose parent does not exist is NOT the same state as default
construction followed by the (no-op) `set_path`: the constructor does not
delegate to `file_t()`, so the handle's path stays the empty path instead
of the `temporary_file.txt` sentinel in the working directory. -/
theorem file_t_from_path_hpp_not_default :
    file_t_from_path_hpp fsNone ["home", "f.txt"]
      ≠ set_path fsNone (file_t.default ["home"]) ["home", "f.txt"] := by
  decide

/-- C5 amended: in the `_v000` variant every constructor delegates to
`file_t()` first, so constructing from a path whose parent does not exist
yields exactly the default state (sentinel `temporary_file.txt` path in
the working directory); in `src/tools.hpp` the path-taking constructors
skip that delegation and a bad-parent construction leaves the empty path
(text and size are still the defaults). -/
theorem file_t_construction_routing (fs : FS) (cwd p : Path)
    (h : fs.exists_b p.dropLast = false) :
    file_t_from_path_v000 fs cwd p = file_t.default cwd ∧
    file_t_from_path_hpp fs p = ⟨0, "", []⟩ := by
  constructor
  · simp [file_t_from_path_v000, set_path, h]
  · simp [file_t_from_path_hpp, set_path, h]

/-- Witness for `file_t_construction_routing` at a concrete input. -/
theorem file_t_construction_routing_witness :
    file_t_from_path_v000 fsNone ["home"] ["gone", "f.txt"]
        = file_t.default ["home"] ∧
    file_t_from_path_hpp fsNone ["gone", "f.txt"] = ⟨0, "", []⟩ :=
  file_t_construction_routing fsNone ["home"] ["gone", "f.txt"] rfl

/-- C7: for a valid pair (a path whose parent exists and that is not a
directory, with any byte buffer), constructing a handle from the pair and
reading back path and contents returns exactly the inputs, in both
constructor variants. -/
theorem file_t_round_trip (fs : FS) (cwd p : Path) (text : String)
    (hpar : fs.exists_b p.dropLast = true) (hdir : fs.is_directory p = false) :
    get_path_fs (file_t_from_path_text_hpp fs p text) = p ∧
    get_text (file_t_from_path_text_hpp fs p text) = text ∧
    get_path_fs (file_t_from_path_text_v000 fs cwd p text) = p ∧
    get_text (file_t_from_path_text_v000 fs cwd p text) = text := by
  refine ⟨?_, rfl, ?_, rfl⟩ <;>
    simp [file_t_from_path_text_hpp, file_t_from_path_text_v000,
          file_t_from_path_hpp, file_t_from_path_v000, set_path, set_text,
          get_path_fs, hpar, hdir]

/-- A concrete filesystem where `/home` is a directory containing the
regular file `/home/f.txt` (openable, holding `"hello"`). -/
def fsHome : FS where
  exists_b := fun p => p == ["home"] || p == ["home", "f.txt"] || p == []
  is_directory := fun p => p == ["home"] || p == []
  children := fun p => if p == ["home"] then [(false, "f.txt")] else []
  can_open := fun p => p == ["home", "f.txt"]
  can_create := fun _ => true
  contents := fun p => if p == ["home", "f.txt"] then "hello" else ""

/-- Witness for `file_t_round_trip` at a concrete valid pair. -/
theorem file_t_round_trip_witness :
    get_path_fs (file_t_from_path_text_hpp fsHome ["home", "g.txt"] "bytes")
        = ["home", "g.txt"] ∧
    get_text (file_t_from_path_text_hpp fsHome ["home", "g.txt"] "bytes")
        = "bytes" ∧
    get_path_fs (file_t_from_path_text_v000 fsHome ["home"] ["home", "g.txt"] "bytes")
        = ["home", "g.txt"] ∧
    get_text (file_t_from_path_text_v000 fsHome ["home"] ["home", "g.txt"] "bytes")
        = "bytes" :=
  file_t_round_trip fsHome ["home"] ["home", "g.txt"] "bytes" rfl rfl

/-- A concrete filesystem where `/home` is a directory but `/home/f.txt`
does not exist (it vanished), for C8's counterexample. -/
def fsVanished : FS where
  exists_b := fun p => p == ["home"] || p == []
  is_directory := fun p => p == ["home"] || p == []
  children := fun _ => []
  can_open := fun _ => false
  can_create := fun _ => false
  contents := fun _ => ""

/-- C8 counterexample: a path that cannot be opened because it does not
exist is NOT surfaced as a `Cannot open file` failure: `read_file`
silently returns a default handle and `write_file` silently returns.  The
claim that every un-openable path fails with the distinct error is false. -/
theorem read_write_vanished_no_error :
    read_file fsVanished ["home"] ["home", "f.txt"]
        = .ok (file_t.default ["home"]) ∧
    write_file fsVanished ["home", "f.txt"] "x" = .ok fsVanished ∧
    read_file fsVanished ["home"] ["home", "f.txt"]
        ≠ .error ("Error: Cannot open file: " ++ fname ["home", "f.txt"]) :=
  ⟨rfl, rfl, fun h => Except.noConfusion h⟩

/-- C8 amended: for a path that exists and is not a directory but whose
stream fails to open, both `read_file` and `write_file` throw the distinct
`Cannot open file` failure carrying the offending filename; paths that do
not exist (or are directories) are instead handled by the silent early
return. -/
theorem read_write_cannot_open (fs : FS) (cwd p : Path) (text : String)
    (hex : fs.exists_b p = true) (hdir : fs.is_directory p = false)
    (hopen : fs.can_open p = false) :
    read_file fs cwd p = .error ("Error: Cannot open file: " ++ fname p) ∧
    write_file fs p text = .error ("Error: Cannot open file: " ++ fname p) := by
  constructor <;> simp [read_file, write_file, hex, hdir, hopen]

/-- A concrete filesystem with an existing but unopenable file
`/home/locked.txt` (for C8's witness). -/
def fsLocked : FS where
  exists_b := fun p => p == ["home"] || p == ["home", "locked.txt"] || p == []
  is_directory := fun p => p == ["home"] || p == []
  children := fun p => if p == ["home"] then [(false, "locked.txt")] else []
  can_open := fun _ => false
  can_create := fun _ => false
  contents := fun _ => ""

/-- Witness for `read_write_cannot_open` at a concrete unopenable file. -/
theorem read_write_cannot_open_witness :
    read_file fsLocked ["home"] ["home", "locked.txt"]
        = .error ("Error: Cannot open file: " ++ fname ["home", "locked.txt"]) ∧
    write_file fsLocked ["home", "locked.txt"] "x"
        = .error ("Error: Cannot open file: " ++ fname ["home", "locked.txt"]) :=
  read_write_cannot_open fsLocked ["home"] ["home", "locked.txt"] "x" rfl rfl rfl

/-- C10: for a path that does not exist or names a directory, `read_file`
returns (without any failure) a fresh default handle: sentinel path
`cwd / temporary_file.txt`, empty contents, size `0`. -/
theorem read_file_missing_default (fs : FS) (cwd p : Path)
    (h : fs.exists_b p = false ∨ fs.is_directory p = true) :
    read_file fs cwd p = .ok ⟨0, "", cwd ++ ["temporary_file.txt"]⟩ := by
  rcases h with h | h <;> simp [read_file, h, file_t.default]

/-- Witness for `read_file_missing_default` at a concrete missing path and
a concrete directory path. -/
theorem read_file_missing_default_witness :
    read_file fsHome ["home"] ["home", "gone.txt"]
        = .ok ⟨0, "", ["home", "temporary_file.txt"]⟩ ∧
    read_file fsHome ["home"] ["home"]
        = .ok ⟨0, "", ["home", "temporary_file.txt"]⟩ :=
  ⟨read_file_missing_default fsHome ["home"] ["home", "gone.txt"] (Or.inl rfl),
   read_file_missing_default fsHome ["home"] ["home"] (Or.inr rfl)⟩

/-! ### Injectivity of the decimal numeral string `std::to_string` /
`Nat.repr` — needed to reason about the numeric token keys of the
navigator's token table. -/

lemma toDigitsCore_fuel : ∀ (n f g : Nat) (ds : List Char), n < f → n < g →
    Nat.toDigitsCore 10 f n ds = Nat.toDigitsCore 10 g n ds := by
  intro n
  induction n using Nat.strong_induction_on with
  | _ n ih =>
    intro f g ds hf hg
    match f, g with
    | f + 1, g + 1 =>
      simp only [Nat.toDigitsCore]
      by_cases h : n / 10 = 0
      · simp [h]
      · have hn : 0 < n := by
          rcases Nat.eq_zero_or_pos n with h0 | h0
          · subst h0; simp at h
          · exact h0
        have hdiv : n / 10 < n := Nat.div_lt_self hn (by norm_num)
        simp only [h, if_false]
        exact ih (n / 10) hdiv f g _ (by omega) (by omega)

lemma toDigitsCore_shift : ∀ (n f : Nat) (ds : List Char), n < f →
    Nat.toDigitsCore 10 f n ds = Nat.toDigitsCore 10 f n [] ++ ds := by
  intro n
  induction n using Nat.strong_induction_on with
  | _ n ih =>
    intro f ds hf
    match f with
    | f + 1 =>
      simp only [Nat.toDigitsCore]
      by_cases h : n / 10 = 0
      · simp [h]
      · have hn : 0 < n := by
          rcases Nat.eq_zero_or_pos n with h0 | h0
          · subst h0; simp at h
          · exact h0
        have hdiv : n / 10 < n := Nat.div_lt_self hn (by norm_num)
        simp only [h, if_false]
        rw [ih (n / 10) hdiv f _ (by omega), ih (n / 10) hdiv f
          [Nat.digitChar (n % 10)] (by omega), List.append_assoc]
        rfl

lemma toDigits_lt_ten (n : Nat) (h : n < 10) :
    Nat.toDigits 10 n = [Nat.digitChar n] := by
  simp [Nat.toDigits, Nat.toDigitsCore, Nat.div_eq_of_lt h, Nat.mod_eq_of_lt h]

lemma toDigits_ge_ten (n : Nat) (h : 10 ≤ n) :
    Nat.toDigits 10 n = Nat.toDigits 10 (n / 10) ++ [Nat.digitChar (n % 10)] := by
  have h0 : n / 10 ≠ 0 := by
    intro h0
    have : n < 10 := by
      by_contra hc
      have : 1 ≤ n / 10 := Nat.one_le_div_iff (by norm_num) |>.mpr (by omega)
      omega
    omega
  have hdiv : n / 10 < n := Nat.div_lt_self (by omega) (by norm_num)
  show Nat.toDigitsCore 10 (n + 1) n [] = _
  simp only [Nat.toDigitsCore, h0, if_false]
  rw [toDigitsCore_shift (n / 10) n _ hdiv,
    toDigitsCore_fuel (n / 10) n (n / 10 + 1) [] hdiv (Nat.lt_succ_self _)]
  rfl

lemma toDigits_ne_nil (n : Nat) : Nat.toDigits 10 n ≠ [] := by
  by_cases h : n < 10
  · rw [toDigits_lt_ten n h]; simp
  · rw [toDigits_ge_ten n (by omega)]; simp

lemma digitChar_inj_lt : ∀ a < 10, ∀ b < 10,
    Nat.digitChar a = Nat.digitChar b → a = b := by decide

lemma toDigits_ten_inj : ∀ (m n : Nat),
    Nat.toDigits 10 m = Nat.toDigits 10 n → m = n := by
  intro m
  induction m using Nat.strong_induction_on with
  | _ m ih =>
    intro n h
    by_cases hm : m < 10 <;> by_cases hn : n < 10
    · rw [toDigits_lt_ten m hm, toDigits_lt_ten n hn] at h
      simp only [List.cons.injEq, and_true] at h
      exact digitChar_inj_lt m hm n hn h
    · rw [toDigits_lt_ten m hm, toDigits_ge_ten n (by omega)] at h
      have hlen := congrArg List.length h
      simp at hlen
      exact absurd hlen (toDigits_ne_nil _)
    · rw [toDigits_ge_ten m (by omega), toDigits_lt_ten n hn] at h
      have hlen := congrArg List.length h
      simp at hlen
      exact absurd hlen (toDigits_ne_nil _)
    · rw [toDigits_ge_ten m (by omega), toDigits_ge_ten n (by omega)] at h
      have hrev := congrArg List.reverse h
      simp only [List.reverse_append, List.reverse_cons, List.reverse_nil,
        List.nil_append, List.cons_append, List.cons.injEq,
        List.reverse_inj] at hrev
      obtain ⟨hd, htl⟩ := hrev
      have hdivlt : m / 10 < m := Nat.div_lt_self (by omega) (by norm_num)
      have hq : m / 10 = n / 10 := ih (m / 10) hdivlt (n / 10) htl
      have hr : m % 10 = n % 10 :=
        digitChar_inj_lt (m % 10) (Nat.mod_lt _ (by norm_num)) (n % 10)
          (Nat.mod_lt _ (by norm_num)) hd
      omega

lemma nat_repr_inj {m n : Nat} (h : Nat.repr m = Nat.repr n) : m = n :=
  toDigits_ten_inj m n (congrArg String.data h)

/-! ### The navigator's token table -/

/-- The navigator's token table `dirs_` : token string ↦
`(is_directory, filename)`, as an association list (first match wins on
lookup, as in `std::map`). -/
abbrev Table := List (String × (Bool × String))

/-- `std::map::operator[]` assignment: replace the value under an existing
key, append the binding otherwise. -/
def table_insert : Table → String → Bool × String → Table
  | [], k, v => [(k, v)]
  | (k', v') :: rest, k, v =>
    if k' == k then (k, v) :: rest else (k', v') :: table_insert rest k v

/-- `std::map::find` (`none` models `dirs_.end()`). -/
def table_find : Table → String → Option (Bool × String)
  | [], _ => none
  | (k', v') :: rest, k => if k' == k then some v' else table_find rest k

/-- The listing loop shared by every `print_filesystem` variant: walk the
directory entries in enumeration order and assign
`std::to_string(num)` (numbering from 1) ↦ `(is_directory, filename)`. -/
def renderLoop : Table → Nat → List (Bool × String) → Table
  | t, _, [] => t
  | t, num, e :: es => renderLoop (table_insert t (Nat.repr num) e) (num + 1) es

/-- `monitoring::print_filesystem` of `src/tools.hpp`: the member map
`dirs_` is NOT cleared first, so the numeric tokens are assigned over
whatever the previous render left in the table. -/
def print_filesystem_hpp (dirs : Table) (entries : List (Bool × String)) : Table :=
  renderLoop dirs 1 entries

/-- `print_filesystem` of the `_v000` variant (`dirs_.clear()` runs
first) and of the third variant (a fresh local map per render): the table
is rebuilt from empty. -/
def print_filesystem_v000 (entries : List (Bool × String)) : Table :=
  renderLoop [] 1 entries

/-- The table the spec demands after listing `entries` from token `num`
on: consecutive numeric tokens in enumeration order and nothing else. -/
def tokenTable : Nat → List (Bool × String) → Table
  | _, [] => []
  | num, e :: es => (Nat.repr num, e) :: tokenTable (num + 1) es

/-- The keys of a table. -/
def tkeys (t : Table) : List String := t.map Prod.fst

lemma table_insert_fresh (t : Table) (k : String) (v : Bool × String)
    (h : k ∉ tkeys t) : table_insert t k v = t ++ [(k, v)] := by
  induction t with
  | nil => rfl
  | cons p rest ih =>
    simp only [tkeys, List.map_cons, List.mem_cons, not_or] at h
    simp only [table_insert, beq_iff_eq]
    rw [if_neg (fun hk => h.1 hk.symm), ih (by simpa [tkeys] using h.2)]
    simp

lemma renderLoop_fresh : ∀ (entries : List (Bool × String)) (t : Table) (num : Nat),
    (∀ m, num ≤ m → Nat.repr m ∉ tkeys t) →
    renderLoop t num entries = t ++ tokenTable num entries := by
  intro entries
  induction entries with
  | nil => intro t num _; simp [renderLoop, tokenTable]
  | cons e es ih =>
    intro t num h
    rw [renderLoop, table_insert_fresh t _ e (h num le_rfl), ih]
    · simp [tokenTable]
    · intro m hm
      simp only [tkeys, List.map_append, List.map_cons, List.map_nil,
        List.mem_append, List.mem_cons, List.not_mem_nil, or_false, not_or]
      exact ⟨fun hmem => h m (by omega) hmem,
             fun heq => absurd (nat_repr_inj heq) (by omega)⟩

/-- C2 counterexample: in `src/tools.hpp` the token table is NOT rebuilt
fresh.  Render a two-entry directory, then render a one-entry directory:
the table is not the spec's `{"1" ↦ (false, "c")}` — the stale token
`"2"` still resolves to the old entry `(false, "b")`. -/
theorem print_filesystem_hpp_stale :
    print_filesystem_hpp (print_filesystem_hpp [] [(false, "a"), (false, "b")])
        [(false, "c")] ≠ tokenTable 1 [(false, "c")] ∧
    table_find (print_filesystem_hpp
        (print_filesystem_hpp [] [(false, "a"), (false, "b")]) [(false, "c")]) "2"
      = some (false, "b") := by
  constructor
  · decide
  · decide

/-- C2 amended: in the variants that rebuild the table from empty
(`dirs_.clear()` in `_v000`, a fresh local map in the third variant),
after listing a directory with `n` entries the table maps exactly the
tokens `"1"` through `"n"`, in filesystem enumeration order, and nothing
else; in the `src/tools.hpp` variant the member table is not cleared, so
entries of earlier renders with tokens above `n` survive. -/
theorem print_filesystem_v000_fresh (entries : List (Bool × String)) :
    print_filesystem_v000 entries = tokenTable 1 entries := by
  rw [print_filesystem_v000,
    renderLoop_fresh entries [] 1 (by intro m _; simp [tkeys])]
  rfl

/-! ### The interactive browsing loop `get_file_path` -/

/-- `generic_string()` of an absolute path. -/
def pathToString (p : Path) : String := "/" ++ String.intercalate "/" p

/-- The filesystem after an `std::ofstream(p, std::ios::out)` creates (or
truncates) the regular file `p`: the path exists, its contents are empty,
and it appears in its parent's enumeration (the position of a new entry in
later enumerations is platform-defined; appending it is one faithful
choice, and nothing proved below depends on the position). -/
def FS.touch (fs : FS) (p : Path) : FS where
  exists_b := fun q => q == p || fs.exists_b q
  is_directory := fs.is_directory
  children := fun q =>
    if q == p.dropLast && !((fs.children q).any fun e => e.2 == fname p) then
      fs.children q ++ [(false, fname p)]
    else fs.children q
  can_open := fs.can_open
  can_create := fs.can_create
  contents := fun q => if q == p then "" else fs.contents q

/-- `monitoring::create_file(path)` of `src/tools.hpp`: when the parent
exists, open an output stream on `path` (redirected to
`path/temporary_file.txt` when `path` is a directory), throwing
`Cannot create file` if the stream does not open; silently do nothing when
the parent does not exist. -/
def create_file (fs : FS) (p : Path) : Except String FS :=
  if fs.exists_b p.dropLast then
    let new_file := if fs.is_directory p then p ++ ["temporary_file.txt"] else p
    if fs.can_create new_file then .ok (fs.touch new_file)
    else .error ("Error: Cannot create file: " ++ fname new_file)
  else .ok fs

/-- `monitoring::create_file(path)` of the `_v000` variant: it builds
`file_t(path)` (so a missing parent redirects to the working directory's
`temporary_file.txt` sentinel, and a directory path to
`path/temporary_file.txt`) and opens an output stream on the handle's
path, writing the empty buffer; throws `Cannot create file` when the
stream does not open. -/
def create_file_v000 (fs : FS) (cwd : Path) (p : Path) : Except String FS :=
  let f := file_t_from_path_v000 fs cwd p
  if fs.can_create f.path_ then .ok (fs.touch f.path_)
  else .error ("Error: Cannot create file: " ++ fname f.path_)

/-- Outcome of one `get_file_path` browsing session driven by a finite
list of input tokens: `out s` models `return s` (cancellation returns the
empty string, a selection returns the selected path's string), `blocked`
models exhausting the input (the loop would block on `std::cin`), and
`err e` models an exception escaping the loop (a `directory_iterator`
constructed on a path that is not an existing directory, or `create_file`
throwing). -/
inductive RunResult where
  | out (s : String)
  | blocked
  | err (e : String)
deriving DecidableEq, Repr

/-- What one resolved selection tells the loop to do next (the control
flow of the `if`/`else if` chain of `get_file_path`): `cancel` is the
`"0"` break, `selectCur` the `"d"` return, `up` the `"b"` branch,
`createFile` the `"c"` branch, `move p` continuing the loop with cursor
`p`, and `chosen p` the `return path_str` of an existing file. -/
inductive Action where
  | cancel
  | selectCur
  | up
  | createFile
  | move (p : Path)
  | chosen (p : Path)
deriving DecidableEq, Repr

/-- The token-resolution chain of one loop iteration, shared by the
variants (`hasD` is true in `_v000`, whose menu has the extra `"d"`
branch between `"0"` and `"b"`): `"0"` breaks (cancel), `"d"` returns the
current directory, `"b"` goes to the parent, `"c"` starts a file
creation, a token found in `dirs_` first appends the entry's name to the
cursor and then either keeps browsing there (directory), returns the
path (existing file), or — after printing `The file does not exist` —
keeps browsing at the already-appended path (vanished file); an
unrecognised token falls through with the cursor unchanged. -/
def resolve (hasD : Bool) (fs : FS) (dirs1 : Table) (path : Path)
    (opt : String) : Action :=
  if opt == "0" then .cancel
  else if hasD && opt == "d" then .selectCur
  else if opt == "b" then .up
  else if opt == "c" then .createFile
  else
    match table_find dirs1 opt with
    | some (is_dir, name) =>
      if is_dir then .move (path ++ [name])
      else if fs.exists_b (path ++ [name]) then .chosen (path ++ [name])
      else .move (path ++ [name])
    | none => .move path

/-- `monitoring::get_file_path` of `src/tools.hpp`, one loop iteration per
input token (`"c"` consumes a second token as the filename).  Each
iteration first renders: `fs::directory_iterator` throws unless `path` is
an existing directory, otherwise the member table `dirs_` is updated in
place (no clearing) from the current listing; the selection is then
resolved by `resolve` (with no `"d"` branch). -/
def run_hpp (fs : FS) (dirs : Table) (path : Path) : List String → RunResult
  | [] =>
    if fs.exists_b path && fs.is_directory path then .blocked
    else .err "filesystem_error: directory_iterator"
  | opt :: rest =>
    if fs.exists_b path && fs.is_directory path then
      let dirs1 := print_filesystem_hpp dirs (fs.children path)
      match resolve false fs dirs1 path opt with
      | .cancel => .out ""
      | .selectCur => .out (pathToString path)
      | .up => run_hpp fs dirs1 path.dropLast rest
      | .createFile =>
        match rest with
        | [] => .blocked
        | filename :: rest2 =>
          match create_file fs (path ++ [filename]) with
          | .ok fs2 => run_hpp fs2 dirs1 path rest2
          | .error e => .err e
      | .move p2 => run_hpp fs dirs1 p2 rest
      | .chosen p2 => .out (pathToString p2)
    else .err "filesystem_error: directory_iterator"

/-- `monitoring::get_file_path` of the `_v000` variant: as `run_hpp`, but
the token table is rebuilt from empty each render, the `"d"` branch is
live, and `create_file` goes through the `file_t(path)` constructor. -/
def run_v000 (fs : FS) (cwd : Path) (path : Path) : List String → RunResult
  | [] =>
    if fs.exists_b path && fs.is_directory path then .blocked
    else .err "filesystem_error: directory_iterator"
  | opt :: rest =>
    if fs.exists_b path && fs.is_directory path then
      let dirs1 := print_filesystem_v000 (fs.children path)
      match resolve true fs dirs1 path opt with
      | .cancel => .out ""
      | .selectCur => .out (pathToString path)
      | .up => run_v000 fs cwd path.dropLast rest
      | .createFile =>
        match rest with
        | [] => .blocked
        | filename :: rest2 =>
          match create_file_v000 fs cwd (path ++ [filename]) with
          | .ok fs2 => run_v000 fs2 cwd path rest2
          | .error e => .err e
      | .move p2 => run_v000 fs cwd p2 rest
      | .chosen p2 => .out (pathToString p2)
    else .err "filesystem_error: directory_iterator"

/-- C9: from any browsing state (any existing directory as the cursor),
selecting `"0"` ends the session as cancelled: the navigator yields the
empty string — the cancelled signal, not a selected path — in both loop
variants, whatever input follows. -/
theorem select_zero_cancels (fs : FS) (dirs : Table) (cwd path : Path)
    (rest : List String)
    (hex : fs.exists_b path = true) (hdir : fs.is_directory path = true) :
    run_hpp fs dirs path ("0" :: rest) = .out "" ∧
    run_v000 fs cwd path ("0" :: rest) = .out "" := by
  constructor
  · rw [run_hpp]
    rw [hex, hdir]
    rfl
  · rw [run_v000.eq_def]
    rw [hex, hdir]
    rfl

/-- Witness for `select_zero_cancels` at a concrete browsing state. -/
theorem select_zero_cancels_witness :
    run_hpp fsHome [] ["home"] ("0" :: ["b", "1"]) = .out "" ∧
    run_v000 fsHome ["home"] ["home"] ("0" :: ["b", "1"]) = .out "" :=
  select_zero_cancels fsHome [] ["home"] ["home"] ["b", "1"] rfl rfl

/-- `/home` is an existing directory whose enumeration still lists
`f.txt`, but the file itself no longer exists — it was deleted between the
listing and the selection (C1's scenario). -/
def fsStale : FS where
  exists_b := fun p => p == ["home"] || p == []
  is_directory := fun p => p == ["home"] || p == []
  children := fun p => if p == ["home"] then [(false, "f.txt")] else []
  can_open := fun _ => false
  can_create := fun _ => false
  contents := fun _ => ""

/-- C1 (code bug): selecting the numeric token of a vanished file does
NOT leave the cursor unchanged.  The source appends the entry name to
`path` before the existence check and, after printing the recoverable
error, loops with that appended path, so the next render's
`directory_iterator` throws: from `Browsing(/home)`, inputs
`["1", "0"]` end in a filesystem error instead of the clean cancellation
the claim predicts — which the second conjunct shows would be the outcome
if the cursor were still `/home`. -/
theorem stale_select_corrupts_cursor :
    run_hpp fsStale [] ["home"] ["1", "0"]
        = .err "filesystem_error: directory_iterator" ∧
    run_hpp fsStale [] ["home"] ["0"] = .out "" := by
  constructor
  · decide
  · decide

end CppTools
